import Mathlib

/-!
Shallow embedding of the reminder-bot repository (two source variants,
`src/bot.py` and `src/g.py`). Instants and local wall-clock times are
modelled as `Int` seconds; `datetime.replace(second=0, microsecond=0)`
becomes truncation to a multiple of 60. Timezones (the pytz library) are
modelled by a `Tz` record giving the UTC offset as a function of the
instant, with a single DST window, and `pytz.localize` (default
`is_dst=False`) as choosing the DST interpretation only when it is the
unique consistent one. The store (SQLAlchemy/SQLite) is a pair of lists
of rows; handlers are state-passing functions returning the new store and
an outcome that separates replies (caught `ValueError`s in the source)
from uncaught Python exceptions.
-/

namespace ReminderBot

/-- Truncation of an instant (seconds) to whole minutes: the embedding of
`datetime.replace(second=0, microsecond=0)`. -/
def truncMin (t : Int) : Int := t - t % 60

/-- Timezone model: a standard offset, a DST offset, and one DST window
given by its UTC start and end instants (seconds). This captures what the
code needs of a pytz timezone for the instants involved. -/
structure Tz where
  std : Int
  dst : Int
  dstStartUtc : Int
  dstEndUtc : Int
  deriving DecidableEq

/-- UTC offset (seconds) of the timezone at a given UTC instant: the
offset pytz attaches when converting an aware datetime with `astimezone`. -/
def Tz.utcOffsetAt (z : Tz) (t : Int) : Int :=
  if z.dstStartUtc ≤ t ∧ t < z.dstEndUtc then z.dst else z.std

/-- Offset chosen by `pytz.localize` (default `is_dst=False`) for a naive
local wall-clock time `l` (seconds): the DST offset when it is the unique
consistent interpretation, otherwise the standard offset (which is also the
choice for ambiguous and nonexistent local times). -/
def Tz.localizeOffset (z : Tz) (l : Int) : Int :=
  if z.utcOffsetAt (l - z.dst) = z.dst ∧ ¬ z.utcOffsetAt (l - z.std) = z.std
  then z.dst else z.std

/-- Embedding of `local_tz.localize(naive_dt).astimezone(pytz.utc)`:
the UTC instant of a local wall-clock time. -/
def Tz.toUtc (z : Tz) (l : Int) : Int := l - z.localizeOffset l

/-- Embedding of converting a UTC instant back to the timezone's wall
clock (`utc_dt.astimezone(tz)` read as naive local time). -/
def Tz.fromUtc (z : Tz) (u : Int) : Int := u + z.utcOffsetAt u

/-- The scanner's per-reminder due test, as the code computes it:
`reminder.reminder_time.astimezone(user_tz).replace(second=0, microsecond=0)
<= now_utc.astimezone(user_tz)` where `now_utc` was already
minute-truncated. Python compares aware datetimes as instants, so the left
side is the instant obtained by truncating the local wall clock (offset `o`
at the reminder's instant) and the right side is the truncated `now`. -/
def isDueLocal (o : Int) (reminderTime nowTrunc : Int) : Bool :=
  truncMin (reminderTime + o) - o ≤ nowTrunc

/-- Embedding of Python `str.split(sep, maxsplit)` on a character list
(recursion on the characters, split budget second): splits on single
occurrences of `sep`, at most `maxsplit` times, keeping empty fields,
exactly as Python does for a one-character separator. -/
def pySplitAux (sep : Char) : List Char → Nat → List (List Char)
  | [], _ => [[]]
  | c :: cs, 0 => [c :: cs]
  | c :: cs, n + 1 =>
    if c = sep then [] :: pySplitAux sep cs n
    else
      match pySplitAux sep cs (n + 1) with
      | [] => [[c]]
      | t :: ts => (c :: t) :: ts

/-- Python `str.split(sep, maxsplit)` with the arguments in source
order. -/
def pySplit (sep : Char) (maxsplit : Nat) (cs : List Char) : List (List Char) :=
  pySplitAux sep cs maxsplit

/-- String version of `pySplit`, the embedding of
`message.text.split(" ", maxsplit)`. -/
def pySplitStr (sep : Char) (maxsplit : Nat) (s : String) : List String :=
  (pySplit sep maxsplit s.toList).map (fun cs => String.mk cs)

/-- Strict decimal parse of a nonempty all-digit string, as the regexes in
CPython `_strptime` consume their fields. -/
def parseDigits (cs : List Char) : Option Nat :=
  if cs ≠ [] ∧ cs.all (fun c => c.isDigit) then
    some (cs.foldl (fun n c => n * 10 + (c.toNat - 48)) 0)
  else none

/-- Leap-year test of the Gregorian calendar, as Python's `datetime`
validates day-of-month. -/
def isLeapYear (y : Nat) : Bool :=
  (y % 4 = 0 ∧ y % 100 ≠ 0) ∨ y % 400 = 0

/-- Number of days in a month, as Python's `datetime` validates
day-of-month. -/
def daysInMonth (y m : Nat) : Nat :=
  if m = 2 then (if isLeapYear y then 29 else 28)
  else if m = 4 ∨ m = 6 ∨ m = 9 ∨ m = 11 then 30
  else 31

/-- Embedding of `datetime.strptime(s, "%d.%m.%Y").date()`: `%d` and `%m`
take one or two digits with the range checks of CPython's field regexes,
`%Y` exactly four digits, the whole string must be consumed, and the
day must exist in the month. Returns `(year, month, day)`. -/
def parseDate (s : String) : Option (Nat × Nat × Nat) :=
  match pySplit '.' 1000 s.toList with
  | [ds, ms, ys] =>
    match parseDigits ds, parseDigits ms, parseDigits ys with
    | some d, some m, some y =>
      if ds.length ≤ 2 ∧ 1 ≤ d ∧ d ≤ 31 ∧ ms.length ≤ 2 ∧ 1 ≤ m ∧ m ≤ 12 ∧
          ys.length = 4 ∧ d ≤ daysInMonth y m
      then some (y, m, d) else none
    | _, _, _ => none
  | _ => none

/-- Embedding of `datetime.strptime(s, "%H:%M").time()`: `%H` one or two
digits in 0..23, `%M` one digit or two digits with the first in 0..5, the
whole string consumed. Returns `(hour, minute)`. -/
def parseTime (s : String) : Option (Nat × Nat) :=
  match pySplit ':' 1000 s.toList with
  | [hs, ms] =>
    match parseDigits hs, parseDigits ms with
    | some h, some mi =>
      if hs.length ≤ 2 ∧ h ≤ 23 ∧ ms.length ≤ 2 ∧ mi ≤ 59 then
        some (h, mi) else none
    | _, _ => none
  | _ => none

/-- Days from 1970-01-01 of a Gregorian civil date (Hinnant's algorithm
with floor division); the timeline underlying Python's `datetime`. -/
def daysFromCivil (y m d : Int) : Int :=
  let yy := if m ≤ 2 then y - 1 else y
  let era := Int.fdiv (if yy ≥ 0 then yy else yy - 399) 400
  let yoe := yy - era * 400
  let mp := Int.fmod (m + 9) 12
  let doy := Int.fdiv (153 * mp + 2) 5 + d - 1
  let doe := yoe * 365 + Int.fdiv yoe 4 - Int.fdiv yoe 100 + doy
  era * 146097 + doe - 719468

/-- Seconds since 1970-01-01T00:00:00 of a naive wall-clock datetime, the
embedding of `datetime.combine(date, time)` as a point on the naive
timeline. -/
def civilToSec (y m d h mi : Nat) : Int :=
  daysFromCivil (Int.ofNat y) (Int.ofNat m) (Int.ofNat d) * 86400 +
    (Int.ofNat h) * 3600 + (Int.ofNat mi) * 60

/-- Embedding of `parse_datetime(date_str, time_str)` from `src/g.py`
(the same parsing appears inline in `src/bot.py`): the naive local
wall-clock instant, in seconds, or `none` when `strptime` raises
`ValueError`. -/
def parse_datetime (dateStr timeStr : String) : Option Int := do
  let (y, m, d) ← parseDate dateStr
  let (h, mi) ← parseTime timeStr
  some (civilToSec y m d h mi)

/-- Row of the `users` table. -/
structure User where
  user_id : Nat
  username : String
  timezone : String
  deriving DecidableEq

/-- Row of the `reminders` table; `reminder_time` is the stored UTC
instant in seconds. -/
structure Reminder where
  reminder_id : Nat
  user_id : Nat
  reminder_text : String
  reminder_time : Int
  deriving DecidableEq

/-- The persistent store: the two tables. -/
structure Store where
  users : List User
  reminders : List Reminder
  deriving DecidableEq

/-- Embedding of `select(User).where(User.user_id == user_id)` /
`UserDAO.get_user` / `session.get(User, uid)`. -/
def getUser (s : Store) (uid : Nat) : Option User :=
  s.users.find? (fun u => u.user_id == uid)

/-- Embedding of `ReminderDAO.get_all_reminders`:
`select(Reminder).join(User)` — an inner join, so only reminders whose
`user_id` matches an existing user row are returned. -/
def get_all_reminders (s : Store) : List Reminder :=
  s.reminders.filter (fun r => s.users.any (fun u => u.user_id == r.user_id))

/-- Embedding of `session.delete(reminder)`: removes the row with the
given primary key. -/
def deleteReminder (s : Store) (rid : Nat) : Store :=
  { s with reminders := s.reminders.filter (fun x => x.reminder_id ≠ rid) }

/-- The `ValueError`s the handlers raise and catch, one constructor per
`raise` site: missing arguments, unknown timezone, unparsable date/time,
empty reminder text (bot.py only), past due time. -/
inductive VErr where
  | badArgs
  | badTz
  | badDateTime
  | emptyText
  | pastDue
  deriving DecidableEq

/-- Python exceptions that escape the handlers' `except ValueError`. -/
inductive PyError where
  | indexError
  | unknownTimeZoneError
  deriving DecidableEq

/-- Outcome of a command handler: a reply (normal confirmation when
`none`, the rendering of a caught `ValueError` when `some`), or an
uncaught exception escaping the handler. -/
inductive HandlerOutcome where
  | replied (err : Option VErr)
  | raised (e : PyError)
  deriving DecidableEq

/-- Embedding of `start_handler` from `src/g.py`: create a user row with
the configured default timezone `DEFAULT_TZ` when none exists, otherwise
write nothing. -/
def start_handler (defaultTz : String) (uid : Nat) (uname : String)
    (s : Store) : Store :=
  match getUser s uid with
  | some _ => s
  | none => { s with users := s.users ++ [⟨uid, uname, defaultTz⟩] }

/-- Embedding of `start_handler` from `src/bot.py`: identical except the
new row's timezone is the literal `"Europe/Moscow"`, not `DEFAULT_TZ`. -/
def start_handler_bot (uid : Nat) (uname : String) (s : Store) : Store :=
  match getUser s uid with
  | some _ => s
  | none => { s with users := s.users ++ [⟨uid, uname, "Europe/Moscow"⟩] }

/-- Embedding of `set_timezone` (both variants are semantically the same):
split off one argument, validate it against `pytz.all_timezones` (the
domain of `env`), then update the existing user's timezone or create the
row. -/
def set_timezone (env : String → Option Tz) (msgText : String) (uid : Nat)
    (uname : String) (s : Store) : Store × HandlerOutcome :=
  let args := pySplitStr ' ' 1 msgText
  if args.length < 2 then (s, .replied (some .badArgs))
  else
    let tz := args.getD 1 ""
    if (env tz).isNone then (s, .replied (some .badTz))
    else
      match getUser s uid with
      | some _ =>
        ({ s with
            users := s.users.map
              (fun u => if u.user_id = uid then { u with timezone := tz } else u) },
          .replied none)
      | none => ({ s with users := s.users ++ [⟨uid, uname, tz⟩] }, .replied none)

/-- Embedding of `set_reminder` from `src/g.py`: split into at most four
fields, require four, parse date and time, resolve the owner's timezone
(default when unknown), localize, reject instants strictly before the
minute-truncated `now`, else insert the reminder row with fresh id
`nextId`. A timezone string outside `env`'s domain makes
`pytz.timezone` raise `UnknownTimeZoneError`, which is not a `ValueError`
and escapes the handler. -/
def set_reminder (env : String → Option Tz) (defaultTz : String) (now : Int)
    (msgText : String) (uid : Nat) (nextId : Nat) (s : Store) :
    Store × HandlerOutcome :=
  let args := pySplitStr ' ' 3 msgText
  if args.length < 4 then (s, .replied (some .badArgs))
  else
    match parse_datetime (args.getD 1 "") (args.getD 2 "") with
    | none => (s, .replied (some .badDateTime))
    | some localSec =>
      let text := args.getD 3 ""
      let userTimezone :=
        match getUser s uid with
        | some u => u.timezone
        | none => defaultTz
      match env userTimezone with
      | none => (s, .raised .unknownTimeZoneError)
      | some z =>
        let utc := z.toUtc localSec
        if utc < truncMin now then (s, .replied (some .pastDue))
        else
          ({ s with reminders := s.reminders ++ [⟨nextId, uid, text, utc⟩] },
            .replied none)

/-- Embedding of `set_reminder` from `src/bot.py`: differs from `src/g.py`
in that the argument-count guard only requires three fields while the text
is read from `args[3]` (an uncaught `IndexError` when exactly three fields
are present), an explicit empty-text check exists, and a stored falsy
(empty) timezone string also falls back to the default. -/
def set_reminder_bot (env : String → Option Tz) (defaultTz : String)
    (now : Int) (msgText : String) (uid : Nat) (nextId : Nat) (s : Store) :
    Store × HandlerOutcome :=
  let args := pySplitStr ' ' 3 msgText
  if args.length < 3 then (s, .replied (some .badArgs))
  else
    match parse_datetime (args.getD 1 "") (args.getD 2 "") with
    | none => (s, .replied (some .badDateTime))
    | some localSec =>
      match args.get? 3 with
      | none => (s, .raised .indexError)
      | some text =>
        if text = "" then (s, .replied (some .emptyText))
        else
          let userTimezone :=
            match getUser s uid with
            | some u => if u.timezone = "" then defaultTz else u.timezone
            | none => defaultTz
          match env userTimezone with
          | none => (s, .raised .unknownTimeZoneError)
          | some z =>
            let utc := z.toUtc localSec
            if utc < truncMin now then (s, .replied (some .pastDue))
            else
              ({ s with reminders := s.reminders ++ [⟨nextId, uid, text, utc⟩] },
                .replied none)

/-- Exceptions that can abort one scan cycle of `check_reminders` (there
is no `try`/`except` in the loop, so any of these propagates out of the
cycle and kills the scan task): `user.timezone` on a `None` user,
`pytz.timezone` on an unknown id, and a failed `bot.send_message`. -/
inductive CycleErr where
  | attributeError
  | unknownTimeZoneError
  | sendFailed (r : Reminder)
  deriving DecidableEq

/-- Result of one scan cycle: the store after all committed deletions, the
messages sent (recipient id and text, in order), and the exception that
aborted the cycle, if any. -/
structure CycleResult where
  store : Store
  sent : List (Nat × String)
  err : Option CycleErr
  deriving DecidableEq

/-- Body of the `for` loop in `check_reminders` over the candidate list:
look up the owner, resolve its timezone, test due-ness, send, and only
after a successful send delete the row (send-then-delete). `sendOk` is the
transport: `sendOk uid msg = false` means `bot.send_message` raises. -/
def processReminders (env : String → Option Tz) (sendOk : Nat → String → Bool)
    (nowTrunc : Int) : Store → List (Nat × String) → List Reminder → CycleResult
  | s, sent, [] => ⟨s, sent, none⟩
  | s, sent, r :: rest =>
    match getUser s r.user_id with
    | none => ⟨s, sent, some .attributeError⟩
    | some u =>
      match env u.timezone with
      | none => ⟨s, sent, some .unknownTimeZoneError⟩
      | some z =>
        if isDueLocal (z.utcOffsetAt r.reminder_time) r.reminder_time nowTrunc then
          let msg := u.username ++ ", не забудь: " ++ r.reminder_text
          if sendOk r.user_id msg then
            processReminders env sendOk nowTrunc (deleteReminder s r.reminder_id)
              (sent ++ [(r.user_id, msg)]) rest
          else ⟨s, sent, some (.sendFailed r)⟩
        else processReminders env sendOk nowTrunc s sent rest

/-- One cycle of `check_reminders` (identical in both variants): compute
the minute-truncated `now`, fetch the candidates (inner join with users),
and process them in order. -/
def check_reminders_cycle (env : String → Option Tz)
    (sendOk : Nat → String → Bool) (now : Int) (s : Store) : CycleResult :=
  processReminders env sendOk (truncMin now) s [] (get_all_reminders s)

/-! Helper lemmas. -/

/-- Truncation commutes with adding a whole-minute offset. -/
theorem truncMin_add_dvd {o : Int} (r : Int) (ho : (60 : Int) ∣ o) :
    truncMin (r + o) = truncMin r + o := by
  unfold truncMin; omega

/-- Truncation to whole minutes is monotone. -/
theorem truncMin_mono {a b : Int} (h : a ≤ b) : truncMin a ≤ truncMin b := by
  unfold truncMin; omega

/-- With a whole-minute offset, the scanner's due test is the
minute-truncated comparison of the two UTC instants. -/
theorem isDueLocal_dvd {o : Int} (a nt : Int) (ho : (60 : Int) ∣ o) :
    isDueLocal o a nt = decide (truncMin a ≤ nt) := by
  unfold isDueLocal
  rw [truncMin_add_dvd a ho, Int.add_sub_cancel]

/-- Deleting a reminder row does not change user lookups. -/
theorem getUser_deleteReminder (s : Store) (rid uid : Nat) :
    getUser (deleteReminder s rid) uid = getUser s uid := rfl

/-- Every reminder returned by the candidate query has a resolvable
owner: the inner join filters orphans out. -/
theorem owner_isSome_of_candidate {s : Store} {r : Reminder}
    (h : r ∈ get_all_reminders s) : (getUser s r.user_id).isSome = true := by
  unfold get_all_reminders at h
  rw [List.mem_filter] at h
  rcases h with ⟨_, hany⟩
  rcases List.any_eq_true.mp hany with ⟨u, hu, hpu⟩
  unfold getUser
  exact List.find?_isSome.mpr ⟨u, hu, by simpa using hpu⟩

/-- The scan loop never modifies the users table. -/
theorem processReminders_users_eq (env : String → Option Tz)
    (sendOk : Nat → String → Bool) (nt : Int) :
    ∀ (cands : List Reminder) (s : Store) (sent : List (Nat × String)),
      (processReminders env sendOk nt s sent cands).store.users = s.users := by
  intro cands
  induction cands with
  | nil => intro s sent; rfl
  | cons c rest ih =>
    intro s sent
    unfold processReminders
    split
    · rfl
    · split
      · rfl
      · dsimp only
        split
        · split
          · exact ih _ _
          · rfl
        · exact ih s sent

/-- If every candidate's owner is resolvable in the store, the cycle
never raises the orphan `AttributeError`. -/
theorem processReminders_no_attrError (env : String → Option Tz)
    (sendOk : Nat → String → Bool) (nt : Int) :
    ∀ (cands : List Reminder) (s : Store) (sent : List (Nat × String)),
      (∀ c ∈ cands, (getUser s c.user_id).isSome = true) →
      (processReminders env sendOk nt s sent cands).err ≠
        some CycleErr.attributeError := by
  intro cands
  induction cands with
  | nil => intro s sent _ h; exact Option.noConfusion h
  | cons c rest ih =>
    intro s sent hres
    unfold processReminders
    split
    · rename_i hu
      have := hres c (List.mem_cons_self c rest)
      rw [hu] at this
      simp at this
    · rename_i u hu
      split
      · simp
      · rename_i z hz
        dsimp only
        split
        · split
          · apply ih
            intro c' hc'
            rw [getUser_deleteReminder]
            exact hres c' (List.mem_cons_of_mem c hc')
          · simp
        · apply ih
          intro c' hc'
          exact hres c' (List.mem_cons_of_mem c hc')

/-- A reminder whose id differs from every candidate's id survives the
cycle: it is never deleted. -/
theorem processReminders_retains (env : String → Option Tz)
    (sendOk : Nat → String → Bool) (nt : Int) :
    ∀ (cands : List Reminder) (s : Store) (sent : List (Nat × String))
      (x : Reminder),
      x ∈ s.reminders → (∀ c ∈ cands, c.reminder_id ≠ x.reminder_id) →
      x ∈ (processReminders env sendOk nt s sent cands).store.reminders := by
  intro cands
  induction cands with
  | nil => intro s sent x hx _; exact hx
  | cons c rest ih =>
    intro s sent x hx hids
    unfold processReminders
    split
    · exact hx
    · split
      · exact hx
      · dsimp only
        split
        · split
          · apply ih
            · unfold deleteReminder
              simp only [List.mem_filter, decide_eq_true_eq]
              exact ⟨hx, Ne.symm (hids c (List.mem_cons_self c rest))⟩
            · intro c' hc'
              exact hids c' (List.mem_cons_of_mem c hc')
          · exact hx
        · exact ih s sent x hx (fun c' hc' => hids c' (List.mem_cons_of_mem c hc'))

/-- At a send failure the cycle stops with the failing reminder still in
the store and its owner still resolvable. -/
theorem processReminders_sendFailed (env : String → Option Tz)
    (sendOk : Nat → String → Bool) (nt : Int) :
    ∀ (cands : List Reminder) (s : Store) (sent : List (Nat × String))
      (r : Reminder),
      (∀ c ∈ cands, c ∈ s.reminders) →
      (cands.map (fun x => x.reminder_id)).Nodup →
      (processReminders env sendOk nt s sent cands).err =
        some (CycleErr.sendFailed r) →
      r ∈ (processReminders env sendOk nt s sent cands).store.reminders ∧
        (getUser (processReminders env sendOk nt s sent cands).store
          r.user_id).isSome = true := by
  intro cands
  induction cands with
  | nil => intro s sent r _ _ h; exact Option.noConfusion h
  | cons c rest ih =>
    intro s sent r hmem hnodup herr
    rw [List.map_cons, List.nodup_cons] at hnodup
    unfold processReminders at herr ⊢
    split at herr
    · exact absurd herr (by simp)
    · rename_i u hu
      split at herr
      · exact absurd herr (by simp)
      · rename_i z hz
        dsimp only at herr ⊢
        split at herr
        · split at herr
          · rename_i hdue hsend
            simp only [hdue, if_true, hsend, if_true]
            apply ih
            · intro c' hc'
              unfold deleteReminder
              simp only [List.mem_filter, decide_eq_true_eq]
              refine ⟨hmem c' (List.mem_cons_of_mem c hc'), ?_⟩
              intro hcontra
              exact hnodup.1 (List.mem_map.mpr ⟨c', hc', hcontra⟩)
            · exact hnodup.2
            · exact herr
          · rename_i hdue hsend
            simp only [hdue, if_true, hsend]
            have hrc : r = c := by
              have := Option.some.inj herr
              cases this
              rfl
            subst hrc
            simp only [Bool.false_eq_true, if_false]
            constructor
            · exact hmem r (List.mem_cons_self r rest)
            · rw [hu]; rfl
        · rename_i hdue
          simp only [hdue, Bool.false_eq_true, if_false]
          exact ih s sent r (fun c' hc' => hmem c' (List.mem_cons_of_mem c hc'))
            hnodup.2 herr

/-! Concrete fixtures used by counterexamples and witnesses. -/

/-- Fixed-offset model of the UTC timezone. -/
def utcTz : Tz := ⟨0, 0, 0, 0⟩

/-- Fixed-offset model of Europe/Moscow (UTC+3, no DST in the modern
era). -/
def mskTz : Tz := ⟨10800, 10800, 0, 0⟩

/-- Model of pytz Europe/Berlin for 2024: CET (+1h), CEST (+2h) between
2024-03-31T01:00:00Z and 2024-10-27T01:00:00Z. -/
def berlinTz : Tz := ⟨3600, 7200, 1711846800, 1729990800⟩

/-- The pytz timezone table restricted to the identifiers the examples
use; every other identifier is unknown, as pytz raises
`UnknownTimeZoneError`. -/
def tzdb : String → Option Tz := fun t =>
  if t = "UTC" then some utcTz
  else if t = "Europe/Moscow" then some mskTz
  else if t = "Europe/Berlin" then some berlinTz
  else none

/-- A registered user in UTC. -/
def sampleUser : User := ⟨1, "alice", "UTC"⟩

/-- Two reminders of `sampleUser`, both already due at any nonnegative
instant. -/
def dueA : Reminder := ⟨1, 1, "a", 0⟩

/-- Second due reminder of `sampleUser`. -/
def dueB : Reminder := ⟨2, 1, "b", 0⟩

/-- Store holding `sampleUser` with the two due reminders. -/
def cycleStore : Store := ⟨[sampleUser], [dueA, dueB]⟩

/-- Transport that fails exactly on the notification text of `dueA` and
succeeds on everything else. -/
def sendFailA : Nat → String → Bool := fun _ m => m ≠ "alice, не забудь: a"

/-- Transport that always succeeds. -/
def sendAll : Nat → String → Bool := fun _ _ => true

/-- An orphaned reminder: no user row carries its `user_id` 99. -/
def orphanR : Reminder := ⟨7, 99, "x", 0⟩

/-- Store holding `sampleUser`, one due reminder and the orphan. -/
def orphanStore : Store := ⟨[sampleUser], [dueA, orphanR]⟩

/-! Claim C1. -/

/-- C1 counterexample: in the cycle over `cycleStore` the send for
`dueA` raises; the claim says the cycle continues and the same-cycle
candidates are still handled, but the exception aborts the loop: `dueB`
is a due candidate whose send would succeed, yet nothing at all is sent
and the cycle ends with the error, leaving the store untouched. -/
theorem send_failure_halts_cycle_cex :
    check_reminders_cycle tzdb sendFailA 120 cycleStore =
      ⟨cycleStore, [], some (CycleErr.sendFailed dueA)⟩ ∧
    dueB ∈ get_all_reminders cycleStore ∧
    isDueLocal (utcTz.utcOffsetAt dueB.reminder_time) dueB.reminder_time
      (truncMin 120) = true ∧
    sendFailA dueB.user_id ("alice, не забудь: " ++ dueB.reminder_text) = true :=
  ⟨by decide, by decide, by decide, by decide⟩

/-- C1 (amended): if the send for a due reminder fails during a scan
cycle over a store with distinct reminder ids, the reminder row is not
deleted, the users table is unchanged, and the same reminder is again a
candidate of the next scan over the resulting store; the raised
exception however aborts the current cycle (and the scan task) instead
of letting the cycle continue. -/
theorem send_failure_leaves_reminder_for_next_scan
    (env : String → Option Tz) (sendOk : Nat → String → Bool) (now : Int)
    (s : Store) (r : Reminder)
    (hnodup : (s.reminders.map (fun x => x.reminder_id)).Nodup)
    (herr : (check_reminders_cycle env sendOk now s).err =
      some (CycleErr.sendFailed r)) :
    r ∈ (check_reminders_cycle env sendOk now s).store.reminders ∧
    r ∈ get_all_reminders (check_reminders_cycle env sendOk now s).store ∧
    (check_reminders_cycle env sendOk now s).store.users = s.users := by
  unfold check_reminders_cycle at herr ⊢
  have hmem : ∀ c ∈ get_all_reminders s, c ∈ s.reminders := fun c hc =>
    List.mem_of_mem_filter hc
  have hnd : ((get_all_reminders s).map (fun x => x.reminder_id)).Nodup :=
    ((List.filter_sublist s.reminders).map _).nodup hnodup
  have h := processReminders_sendFailed env sendOk (truncMin now)
    (get_all_reminders s) s [] r hmem hnd herr
  refine ⟨h.1, ?_, processReminders_users_eq env sendOk (truncMin now) _ s []⟩
  unfold get_all_reminders
  rw [List.mem_filter]
  refine ⟨h.1, ?_⟩
  have h2 := h.2
  unfold getUser at h2
  rw [List.find?_isSome] at h2
  rcases h2 with ⟨u, hu, hpu⟩
  exact List.any_eq_true.mpr ⟨u, hu, hpu⟩

/-- C1 witness: the amended statement applied to the concrete failing
cycle. -/
theorem send_failure_leaves_reminder_for_next_scan_witness :
    dueA ∈ (check_reminders_cycle tzdb sendFailA 120 cycleStore).store.reminders ∧
    dueA ∈ get_all_reminders
      (check_reminders_cycle tzdb sendFailA 120 cycleStore).store ∧
    (check_reminders_cycle tzdb sendFailA 120 cycleStore).store.users =
      cycleStore.users :=
  send_failure_leaves_reminder_for_next_scan tzdb sendFailA 120 cycleStore dueA
    (by decide) (by decide)

/-! Claim C2. -/

/-- Store with one registered UTC user and no reminders. -/
def c2Store : Store := ⟨[sampleUser], []⟩

/-- C2 counterexample: the request resolves to 2024-10-15T15:30:00Z
(wall clock 18:30 Europe/Moscow is irrelevant here, the user is in UTC so
18:30 UTC), the current instant truncates to exactly the same minute,
and the claim says such a request is rejected with `PastDueTime` and no
row is written; the handler instead succeeds and inserts the row, since
the code only rejects strictly smaller instants. -/
theorem equal_instant_accepted_cex :
    parse_datetime "15.10.2024" "18:30" = some 1729017000 ∧
    utcTz.toUtc 1729017000 = 1729017000 ∧
    truncMin 1729017030 = 1729017000 ∧
    set_reminder tzdb "UTC" 1729017030 "/set_reminder 15.10.2024 18:30 milk"
        1 1 c2Store =
      (⟨[sampleUser], [⟨1, 1, "milk", 1729017000⟩]⟩,
        HandlerOutcome.replied none) :=
  ⟨by decide, by decide, by decide, by decide⟩

/-- C2 (amended): a well-formed `/set_reminder` request by a known user
with a recognized timezone is rejected with `PastDueTime` — writing
nothing — iff its resolved UTC instant is strictly before the
minute-truncated current instant; an instant at or after it (equality
included) is accepted and the reminder row is written. -/
theorem set_reminder_past_rejection_strict
    (env : String → Option Tz) (defaultTz : String) (now : Int)
    (msgText a0 a1 a2 a3 : String) (uid nextId : Nat) (s : Store)
    (u : User) (z : Tz) (localSec : Int)
    (hsplit : pySplitStr ' ' 3 msgText = [a0, a1, a2, a3])
    (hparse : parse_datetime a1 a2 = some localSec)
    (huser : getUser s uid = some u)
    (henv : env u.timezone = some z) :
    (z.toUtc localSec < truncMin now →
      set_reminder env defaultTz now msgText uid nextId s =
        (s, HandlerOutcome.replied (some VErr.pastDue))) ∧
    (truncMin now ≤ z.toUtc localSec →
      set_reminder env defaultTz now msgText uid nextId s =
        ({ s with reminders :=
            s.reminders ++ [⟨nextId, uid, a3, z.toUtc localSec⟩] },
          HandlerOutcome.replied none)) := by
  have hres : set_reminder env defaultTz now msgText uid nextId s =
      if z.toUtc localSec < truncMin now then
        (s, HandlerOutcome.replied (some VErr.pastDue))
      else
        ({ s with reminders :=
            s.reminders ++ [⟨nextId, uid, a3, z.toUtc localSec⟩] },
          HandlerOutcome.replied none) := by
    unfold set_reminder
    rw [hsplit]
    simp only [List.length_cons, List.length_nil, List.getD_cons_succ,
      List.getD_cons_zero, hparse, huser, henv]
    norm_num
  constructor
  · intro h
    rw [hres, if_pos h]
  · intro h
    rw [hres, if_neg (not_lt.mpr h)]

/-- C2 witness: the amended statement applied at the concrete instant
that equals the truncated current instant. -/
theorem set_reminder_past_rejection_strict_witness :
    set_reminder tzdb "UTC" 1729017030 "/set_reminder 15.10.2024 18:30 milk"
        1 1 c2Store =
      ({ c2Store with reminders :=
          c2Store.reminders ++ [⟨1, 1, "milk", utcTz.toUtc 1729017000⟩] },
        HandlerOutcome.replied none) :=
  (set_reminder_past_rejection_strict tzdb "UTC" 1729017030
      "/set_reminder 15.10.2024 18:30 milk" "/set_reminder" "15.10.2024"
      "18:30" "milk" 1 1 c2Store sampleUser utcTz 1729017000
      (by decide) (by decide) (by decide) (by decide)).2 (by decide)

/-! Claim C3. -/

/-- C3 counterexample: with a zero offset the scanner's check on
dueAt = 90 s and now = 60 s returns true although dueAt > now: the
claim's second part, "for a > b the check is false", fails for instants
that fall inside the same minute. -/
theorem isDue_subminute_cex :
    isDueLocal 0 90 (truncMin 60) = true ∧ (60 : Int) < 90 := by decide

/-- C3 (amended): with a whole-minute UTC offset the scanner's due check
equals the minute-truncated comparison `truncMin dueAt ≤ truncMin now`;
hence it is true for all `a ≤ b`, and for `a > b` it is false exactly
when the two instants still differ after minute truncation. -/
theorem isDue_minute_truncated (o a b : Int) (ho : (60 : Int) ∣ o) :
    (isDueLocal o a (truncMin b) = true ↔ truncMin a ≤ truncMin b) ∧
    (a ≤ b → isDueLocal o a (truncMin b) = true) ∧
    (truncMin b < truncMin a → isDueLocal o a (truncMin b) = false) := by
  have h := isDueLocal_dvd a (truncMin b) ho
  refine ⟨?_, ?_, ?_⟩
  · rw [h]; simp
  · intro hab
    rw [h, decide_eq_true_eq]
    exact truncMin_mono hab
  · intro hlt
    rw [h, decide_eq_false_iff_not]
    exact not_le.mpr hlt

/-- C3 witness: the amended statement at offset 60 and instants 0 and
30. -/
theorem isDue_minute_truncated_witness :
    (isDueLocal 60 0 (truncMin 30) = true ↔ truncMin 0 ≤ truncMin 30) ∧
    ((0 : Int) ≤ 30 → isDueLocal 60 0 (truncMin 30) = true) ∧
    (truncMin 30 < truncMin 0 → isDueLocal 60 0 (truncMin 30) = false) :=
  isDue_minute_truncated 60 0 30 (by decide)

/-! Claim C4. -/

/-- C4: an orphaned reminder — no user row carries its `user_id` — is
not a candidate of the scan cycle (the inner join filters it out), the
cycle can never raise the orphan lookup error, the orphan row survives
the cycle untouched, and the candidate set equals that of the store
without the orphan, so the remaining candidates are processed exactly as
if the orphan were absent. -/
theorem orphan_reminder_skipped (env : String → Option Tz)
    (sendOk : Nat → String → Bool) (now : Int) (s : Store) (r : Reminder)
    (horph : ∀ u ∈ s.users, u.user_id ≠ r.user_id)
    (hmem : r ∈ s.reminders)
    (hnodup : (s.reminders.map (fun x => x.reminder_id)).Nodup) :
    r ∉ get_all_reminders s ∧
    (check_reminders_cycle env sendOk now s).err ≠
      some CycleErr.attributeError ∧
    r ∈ (check_reminders_cycle env sendOk now s).store.reminders ∧
    get_all_reminders (deleteReminder s r.reminder_id) =
      get_all_reminders s := by
  have h1 : r ∉ get_all_reminders s := by
    intro hr
    have h := owner_isSome_of_candidate hr
    unfold getUser at h
    rw [List.find?_isSome] at h
    rcases h with ⟨u, hu, hpu⟩
    exact horph u hu (by simpa using hpu)
  have hids : ∀ c ∈ get_all_reminders s, c.reminder_id ≠ r.reminder_id := by
    intro c hc hceq
    have hcr : c = r :=
      List.inj_on_of_nodup_map hnodup (List.mem_of_mem_filter hc) hmem hceq
    exact h1 (hcr ▸ hc)
  refine ⟨h1, ?_, ?_, ?_⟩
  · unfold check_reminders_cycle
    exact processReminders_no_attrError env sendOk (truncMin now)
      (get_all_reminders s) s [] (fun c hc => owner_isSome_of_candidate hc)
  · unfold check_reminders_cycle
    exact processReminders_retains env sendOk (truncMin now)
      (get_all_reminders s) s [] r hmem hids
  · unfold get_all_reminders deleteReminder
    rw [List.filter_filter]
    apply List.filter_congr
    intro x hx
    by_cases howner : s.users.any (fun u => u.user_id == x.user_id) = true
    · rw [howner, Bool.true_and]
      rw [decide_eq_true_eq]
      intro hxe
      have hxr : x = r := List.inj_on_of_nodup_map hnodup hx hmem hxe
      subst hxr
      rcases List.any_eq_true.mp howner with ⟨u, hu, hpu⟩
      exact horph u hu (by simpa using hpu)
    · simp only [Bool.not_eq_true] at howner
      rw [howner, Bool.false_and]

/-- C4 witness: the statement applied to the concrete store containing
the orphan `orphanR`. -/
theorem orphan_reminder_skipped_witness :
    orphanR ∉ get_all_reminders orphanStore ∧
    (check_reminders_cycle tzdb sendAll 120 orphanStore).err ≠
      some CycleErr.attributeError ∧
    orphanR ∈ (check_reminders_cycle tzdb sendAll 120 orphanStore).store.reminders ∧
    get_all_reminders (deleteReminder orphanStore orphanR.reminder_id) =
      get_all_reminders orphanStore :=
  orphan_reminder_skipped tzdb sendAll 120 orphanStore orphanR
    (by decide) (by decide) (by decide)

/-! Claim C5. -/

/-- Store with one registered UTC user and no reminders, for the
missing-text requests. -/
def c5Store : Store := ⟨[sampleUser], []⟩

/-- C5 (code-bug evidence): a `/set_reminder` with date and time but no
text. In `src/bot.py` the guard only requires three fields while the
text is read from `args[3]`, so the handler dies with an uncaught
`IndexError` instead of the claimed `InvalidArgument` reply; and in
`src/g.py` a trailing space yields an empty text that is accepted and
stored — the empty-text check is absent there. In both variants the
code's own usage message demands a text argument. -/
theorem set_reminder_missing_text_crash :
    set_reminder_bot tzdb "UTC" 0 "/set_reminder 15.10.2024 18:30" 1 1 c5Store =
      (c5Store, HandlerOutcome.raised PyError.indexError) ∧
    set_reminder tzdb "UTC" 0 "/set_reminder 15.10.2024 18:30 " 1 1 c5Store =
      ({ c5Store with reminders := [⟨1, 1, "", 1729017000⟩] },
        HandlerOutcome.replied none) :=
  ⟨by decide, by decide⟩

/-! Claim C6. -/

/-- The `/set_reminder` handler never writes the users table, on any of
its paths. -/
theorem set_reminder_users_eq (env : String → Option Tz) (defaultTz : String)
    (now : Int) (msg : String) (uid nextId : Nat) (s : Store) :
    ((set_reminder env defaultTz now msg uid nextId s).1).users = s.users := by
  unfold set_reminder
  dsimp only
  repeat' split
  all_goals rfl

/-- Stored-timezone invariant of the spec: every user row's timezone is
an identifier the resolver recognizes. -/
def tzInv (env : String → Option Tz) (s : Store) : Prop :=
  ∀ u ∈ s.users, (env u.timezone).isSome = true

/-- C6 counterexample: the configured default (`TZ` environment
variable, free-form) is stored by `/start` without validation; with an
unrecognized default the very first `/start` produces a user row whose
timezone the resolver rejects. -/
theorem default_timezone_unvalidated_cex :
    ¬ tzInv tzdb (start_handler "Mars/Olympus" 1 "alice" ⟨[], []⟩) := by
  intro h
  exact absurd (h ⟨1, "alice", "Mars/Olympus"⟩ (by decide)) (by decide)

/-- C6 (amended): the invariant is preserved by every handler provided
the configured default itself is a recognized identifier: `/start`
writes the default (`src/g.py`) or the literal Europe/Moscow
(`src/bot.py`), `/set_timezone` writes only validated identifiers, and
`/set_reminder` never writes a user row. The default itself, however, is
stored unvalidated, as the counterexample shows. -/
theorem timezone_invariant_preserved (env : String → Option Tz)
    (defaultTz msg uname : String) (uid nextId : Nat) (now : Int) (s : Store)
    (hdef : (env defaultTz).isSome = true)
    (hmsk : (env "Europe/Moscow").isSome = true)
    (hinv : tzInv env s) :
    tzInv env (start_handler defaultTz uid uname s) ∧
    tzInv env (start_handler_bot uid uname s) ∧
    tzInv env (set_timezone env msg uid uname s).1 ∧
    tzInv env (set_reminder env defaultTz now msg uid nextId s).1 := by
  refine ⟨?_, ?_, ?_, ?_⟩
  · unfold start_handler
    cases getUser s uid with
    | some _ => exact hinv
    | none =>
      intro u hu
      rcases List.mem_append.mp hu with h | h
      · exact hinv u h
      · rw [List.mem_singleton.mp h]
        exact hdef
  · unfold start_handler_bot
    cases getUser s uid with
    | some _ => exact hinv
    | none =>
      intro u hu
      rcases List.mem_append.mp hu with h | h
      · exact hinv u h
      · rw [List.mem_singleton.mp h]
        exact hmsk
  · unfold set_timezone
    dsimp only
    by_cases hlen : (pySplitStr ' ' 1 msg).length < 2
    · rw [if_pos hlen]
      exact hinv
    · rw [if_neg hlen]
      by_cases hnone : (env ((pySplitStr ' ' 1 msg).getD 1 "")).isNone = true
      · rw [if_pos hnone]
        exact hinv
      · rw [if_neg hnone]
        have hsome : (env ((pySplitStr ' ' 1 msg).getD 1 "")).isSome = true := by
          cases henv : env ((pySplitStr ' ' 1 msg).getD 1 "") with
          | none => exact absurd (by rw [henv]; rfl) hnone
          | some _ => rfl
        cases hgu : getUser s uid with
        | some v0 =>
          dsimp only
          intro u hu
          rcases List.mem_map.mp hu with ⟨v, hv, rfl⟩
          by_cases hvid : v.user_id = uid
          · rw [if_pos hvid]
            exact hsome
          · rw [if_neg hvid]
            exact hinv v hv
        | none =>
          dsimp only
          intro u hu
          rcases List.mem_append.mp hu with h | h
          · exact hinv u h
          · rw [List.mem_singleton.mp h]
            exact hsome
  · intro u hu
    rw [set_reminder_users_eq] at hu
    exact hinv u hu

/-- C6 witness: the amended statement at a concrete valid default. -/
theorem timezone_invariant_preserved_witness :
    tzInv tzdb (start_handler "UTC" 1 "bob" ⟨[], []⟩) ∧
    tzInv tzdb (start_handler_bot 1 "bob" ⟨[], []⟩) ∧
    tzInv tzdb (set_timezone tzdb "/set_timezone UTC" 1 "bob" ⟨[], []⟩).1 ∧
    tzInv tzdb (set_reminder tzdb "UTC" 0 "/set_timezone UTC" 1 1 ⟨[], []⟩).1 :=
  timezone_invariant_preserved tzdb "UTC" "/set_timezone UTC" "bob" 1 1 0
    ⟨[], []⟩ (by decide) (by decide) (by intro u hu; exact absurd hu (List.not_mem_nil u))

/-! Claim C7. -/

/-- C7 counterexample: with the configured default `America/New_York`
the `src/bot.py` variant of `/start` still stores the literal
Europe/Moscow — the claim that both variants store the same configured
value fails: the two variants write different rows and bot.py ignores
the configuration. -/
theorem start_default_timezone_cex :
    (start_handler_bot 1 "alice" ⟨[], []⟩).users =
      [⟨1, "alice", "Europe/Moscow"⟩] ∧
    start_handler_bot 1 "alice" ⟨[], []⟩ ≠
      start_handler "America/New_York" 1 "alice" ⟨[], []⟩ :=
  ⟨by decide, by decide⟩

/-- C7 (amended): for a user with no row, `/start` in `src/g.py` creates
the row with the configured default timezone while `src/bot.py` creates
it with the hardcoded literal Europe/Moscow (they agree only when the
default is that fallback value); for a user with an existing row, both
variants write nothing. -/
theorem start_handler_behavior (defaultTz uname : String) (uid : Nat)
    (s : Store) :
    (getUser s uid = none →
      start_handler defaultTz uid uname s =
        { s with users := s.users ++ [⟨uid, uname, defaultTz⟩] } ∧
      start_handler_bot uid uname s =
        { s with users := s.users ++ [⟨uid, uname, "Europe/Moscow"⟩] }) ∧
    (∀ u, getUser s uid = some u →
      start_handler defaultTz uid uname s = s ∧
      start_handler_bot uid uname s = s) := by
  constructor
  · intro h
    constructor
    · unfold start_handler
      rw [h]
    · unfold start_handler_bot
      rw [h]
  · intro u h
    constructor
    · unfold start_handler
      rw [h]
    · unfold start_handler_bot
      rw [h]

/-- C7 witness: the amended statement on the empty store and on a store
that already holds the user. -/
theorem start_handler_behavior_witness :
    start_handler "America/New_York" 1 "alice" ⟨[], []⟩ =
      { users := [⟨1, "alice", "America/New_York"⟩], reminders := [] } ∧
    start_handler_bot 1 "alice" ⟨[], []⟩ =
      { users := [⟨1, "alice", "Europe/Moscow"⟩], reminders := [] } ∧
    start_handler "America/New_York" 1 "alice" c2Store = c2Store ∧
    start_handler_bot 1 "alice" c2Store = c2Store := by
  have h1 := (start_handler_behavior "America/New_York" "alice" 1 ⟨[], []⟩).1
    (by decide)
  have h2 := (start_handler_behavior "America/New_York" "alice" 1 c2Store).2
    sampleUser (by decide)
  exact ⟨h1.1, h1.2, h2.1, h2.2⟩

/-! Claim C8. -/

/-- C8: a `/set_timezone` command never touches the reminders table, and
when the owner's row exists it changes at most that row's timezone
field: ids and usernames of all rows are unchanged and every other
user's row is untouched. In particular every reminder's stored
`reminder_time` is exactly as before. -/
theorem set_timezone_frame (env : String → Option Tz) (msg uname : String)
    (uid : Nat) (s : Store) (u0 : User)
    (hu : getUser s uid = some u0) :
    ((set_timezone env msg uid uname s).1).reminders = s.reminders ∧
    ((set_timezone env msg uid uname s).1).users.map
        (fun u => (u.user_id, u.username)) =
      s.users.map (fun u => (u.user_id, u.username)) ∧
    ∀ u ∈ s.users, u.user_id ≠ uid →
      u ∈ ((set_timezone env msg uid uname s).1).users := by
  unfold set_timezone
  dsimp only
  by_cases hlen : (pySplitStr ' ' 1 msg).length < 2
  · rw [if_pos hlen]
    exact ⟨rfl, rfl, fun u hm _ => hm⟩
  · rw [if_neg hlen]
    by_cases hnone : (env ((pySplitStr ' ' 1 msg).getD 1 "")).isNone = true
    · rw [if_pos hnone]
      exact ⟨rfl, rfl, fun u hm _ => hm⟩
    · rw [if_neg hnone, hu]
      dsimp only
      refine ⟨rfl, ?_, ?_⟩
      · rw [List.map_map]
        apply List.map_congr_left
        intro v hv
        by_cases h : v.user_id = uid
        · simp only [Function.comp_apply, if_pos h]
        · simp only [Function.comp_apply, if_neg h]
      · intro u hm hne
        exact List.mem_map.mpr ⟨u, hm, by rw [if_neg hne]⟩

/-- C8 witness: the frame property on a store with one user and one
reminder, for a successful timezone change. -/
theorem set_timezone_frame_witness :
    ((set_timezone tzdb "/set_timezone Europe/Moscow" 1 "alice"
        ⟨[sampleUser], [dueA]⟩).1).reminders = [dueA] ∧
    ((set_timezone tzdb "/set_timezone Europe/Moscow" 1 "alice"
        ⟨[sampleUser], [dueA]⟩).1).users.map
        (fun u => (u.user_id, u.username)) =
      [sampleUser].map (fun u => (u.user_id, u.username)) ∧
    ∀ u ∈ [sampleUser], u.user_id ≠ 1 →
      u ∈ ((set_timezone tzdb "/set_timezone Europe/Moscow" 1 "alice"
        ⟨[sampleUser], [dueA]⟩).1).users :=
  set_timezone_frame tzdb "/set_timezone Europe/Moscow" "alice" 1
    ⟨[sampleUser], [dueA]⟩ sampleUser (by decide)

/-! Claim C9. -/

/-- C9 counterexample: the valid strings 31.03.2024 and 02:30 name a
local wall-clock time skipped by the Berlin spring-forward transition;
`localize` picks the CET offset, and converting the resulting instant
back to the same timezone gives wall clock 03:30, not the original
minute. -/
theorem roundtrip_dst_gap_cex :
    tzdb "Europe/Berlin" = some berlinTz ∧
    parse_datetime "31.03.2024" "02:30" = some 1711852200 ∧
    berlinTz.fromUtc (berlinTz.toUtc 1711852200) = 1711855800 ∧
    (1711855800 : Int) ≠ 1711852200 :=
  ⟨by decide, by decide, by decide, by decide⟩

/-- C9 (amended): the round trip holds exactly for local times that
exist in the timezone: whenever the offset chosen at localization equals
the timezone's offset at the resulting instant, converting a parsed
local wall-clock time to UTC and back reproduces it; nonexistent local
times (DST gaps) are the only exceptions. -/
theorem roundtrip_existing_local_time (z : Tz) (ds ts : String) (l : Int)
    (_hp : parse_datetime ds ts = some l)
    (hex : z.utcOffsetAt (l - z.localizeOffset l) = z.localizeOffset l) :
    z.fromUtc (z.toUtc l) = l := by
  unfold Tz.fromUtc Tz.toUtc
  rw [hex]
  omega

/-- C9 witness: the round trip at a Berlin summer wall-clock time. -/
theorem roundtrip_existing_local_time_witness :
    berlinTz.fromUtc (berlinTz.toUtc 1721044800) = 1721044800 :=
  roundtrip_existing_local_time berlinTz "15.07.2024" "12:00" 1721044800
    (by decide) (by decide)

/-! Claim C10. -/

/-- C10: the scanner's dispatch decision for a reminder is independent
of the owner's stored timezone, for any two timezone models whose UTC
offsets at the reminder's instant are whole minutes: the due test
reduces to the same minute-truncated UTC comparison either way. -/
theorem due_decision_timezone_independent (z1 z2 : Tz) (r now : Int)
    (h1 : (60 : Int) ∣ z1.utcOffsetAt r) (h2 : (60 : Int) ∣ z2.utcOffsetAt r) :
    isDueLocal (z1.utcOffsetAt r) r (truncMin now) =
      isDueLocal (z2.utcOffsetAt r) r (truncMin now) := by
  rw [isDueLocal_dvd r (truncMin now) h1, isDueLocal_dvd r (truncMin now) h2]

/-- C10 witness: the decision agrees between the UTC and Moscow models
at a concrete instant. -/
theorem due_decision_timezone_independent_witness :
    isDueLocal (utcTz.utcOffsetAt 1729017000) 1729017000 (truncMin 1729017030) =
      isDueLocal (mskTz.utcOffsetAt 1729017000) 1729017000 (truncMin 1729017030) :=
  due_decision_timezone_independent utcTz mskTz 1729017000 1729017030
    (by decide) (by decide)

end ReminderBot
